import Mathlib

set_option maxHeartbeats 1000000
set_option maxRecDepth 100000

/-!
Verification of the `drlau/go-misc` command-line utilities against their
specification.  The repository holds three small Go programs:

* a GraphQL close-PR tool with a `-strict` flag (the canonical close
  workflow per the spec's design notes),
* a REST close-PR variant built on `go-github`,
* a paginated search/list-PR tool (`github-list-pr`).

Each program is shallowly embedded below: the sequential control flow of
`main` becomes a pure function from the fetched data and the outcomes of
the remote calls to the trace of mutating API calls, the log events and
the process exit status.
-/

namespace GoMisc

namespace ClosePR

/-- Repository sub-record of the GraphQL `PullRequest` query
(`BaseRepository` / `HeadRepository` blocks of the source struct). -/
structure RepoInfo where
  id : String
  name : String
deriving DecidableEq, Repr

/-- `HeadRef` sub-record of the GraphQL `PullRequest` query. -/
structure RefInfo where
  id : String
  name : String
deriving DecidableEq, Repr

/-- The `PullRequest` struct of the GraphQL close-PR tool: identifier,
number, title, state (GraphQL states are upper-case, e.g. `"OPEN"`),
base repository, head ref and head repository. -/
structure PullRequest where
  id : String
  number : Int
  title : String
  state : String
  baseRepository : RepoInfo
  headRef : RefInfo
  headRepository : RepoInfo
deriving DecidableEq, Repr

/-- A mutating GraphQL API call issued by the close workflow, named after
the helper that issues it (`commentOnPR`, `closePR`, `deleteRef`). -/
inductive ApiCall where
  | comment (subjectId body : String)
  | closePR (prId : String)
  | deleteRef (refId : String)
deriving DecidableEq, Repr

/-- A log line emitted by the close workflow, one constructor per
`log.Fatalf` / `log.Printf` site of `main`. -/
inductive LogEvent where
  | errorNotOpen (number : Int)
  | warnNotOpen (number : Int)
  | errorComment (number : Int)
  | errorClose (number : Int)
  | infoClosed (number : Int)
  | warnForkSkip (headRepoName baseRepoName : String)
  | errorDelete (refName : String)
  | infoDeleted (refName : String)
deriving DecidableEq, Repr

/-- Success/failure of each remote mutation the run may attempt.  The
workflow is deterministic once these outcomes are fixed. -/
structure Outcomes where
  commentOk : Bool
  closeOk : Bool
  deleteOk : Bool
deriving DecidableEq, Repr

/-- Observable result of one run of the close workflow: process exit
status (`log.Fatalf` exits 1, a plain `return` from `main` exits 0), the
mutating API calls in the order they were issued, and the log events. -/
structure RunResult where
  exitCode : Nat
  calls : List ApiCall
  logs : List LogEvent
deriving DecidableEq, Repr

/-- The close workflow of the GraphQL tool's `main` after the PR lookup:

1. if the state is not `"OPEN"`: `-strict` makes it fatal, otherwise a
   warning is logged and `main` returns;
2. a non-empty close comment is posted first; failure is fatal;
3. the close mutation is issued; failure is fatal;
4. without `-delete-branch` the run ends; with it, a head repository
   differing from the base repository skips deletion with a warning,
   otherwise the head ref is deleted (failure fatal). -/
def closeWorkflow (pr : PullRequest) (closeComment : String)
    (deleteBranch strict : Bool) (o : Outcomes) : RunResult :=
  if pr.state ≠ "OPEN" then
    if strict then
      { exitCode := 1, calls := [], logs := [LogEvent.errorNotOpen pr.number] }
    else
      { exitCode := 0, calls := [], logs := [LogEvent.warnNotOpen pr.number] }
  else
    let commentCalls : List ApiCall :=
      if closeComment ≠ "" then [ApiCall.comment pr.id closeComment] else []
    if closeComment ≠ "" ∧ o.commentOk = false then
      { exitCode := 1, calls := commentCalls, logs := [LogEvent.errorComment pr.number] }
    else
      let callsToClose := commentCalls ++ [ApiCall.closePR pr.id]
      if o.closeOk = false then
        { exitCode := 1, calls := callsToClose, logs := [LogEvent.errorClose pr.number] }
      else
        let closedLogs := [LogEvent.infoClosed pr.number]
        if !deleteBranch then
          { exitCode := 0, calls := callsToClose, logs := closedLogs }
        else if pr.headRepository.id ≠ pr.baseRepository.id then
          { exitCode := 0, calls := callsToClose,
            logs := closedLogs ++
              [LogEvent.warnForkSkip pr.headRepository.name pr.baseRepository.name] }
        else
          let callsWithDelete := callsToClose ++ [ApiCall.deleteRef pr.headRef.id]
          if o.deleteOk = false then
            { exitCode := 1, calls := callsWithDelete,
              logs := closedLogs ++ [LogEvent.errorDelete pr.headRef.name] }
          else
            { exitCode := 0, calls := callsWithDelete,
              logs := closedLogs ++ [LogEvent.infoDeleted pr.headRef.name] }

/-- `true` on the branch-deletion mutation. -/
def ApiCall.isDeleteRef : ApiCall → Bool
  | ApiCall.deleteRef _ => true
  | _ => false

/-- Whether a run attempted the branch-deletion mutation. -/
def RunResult.attemptsDelete (r : RunResult) : Bool :=
  r.calls.any ApiCall.isDeleteRef

end ClosePR

namespace ListPR

/-- The `PullRequest` struct of `github-list-pr`: number, title, state and
URL of one search result. -/
structure PullRequest where
  number : Int
  title : String
  state : String
  url : String
deriving DecidableEq, Repr

/-- A node of the GraphQL `search(type: ISSUE, ...)` connection.  The
search type the program requests is `ISSUE`, whose nodes are issues or
pull requests; the source reads the node through the inline fragment
`... on PullRequest`, so an issue node leaves the embedded `PullRequest`
struct at its zero value. -/
inductive SearchNode where
  | pullRequest (pr : PullRequest)
  | issue
deriving DecidableEq, Repr

/-- The embedded `PullRequest` value decoded from a search node: the
fragment fields for a pull-request node, the Go zero value for an issue
node (the fragment `... on PullRequest` yields no fields there). -/
def SearchNode.toPullRequest : SearchNode → PullRequest
  | SearchNode.pullRequest pr => pr
  | SearchNode.issue => { number := 0, title := "", state := "", url := "" }

/-- The `type` variable of the search query: `githubv4.SearchTypeIssue`,
whose GraphQL value is `ISSUE`. -/
def searchTypeVariable : String := "ISSUE"

/-- One response of the paginated search: the page's nodes and its
`PageInfo` (`EndCursor`, `HasNextPage`). -/
structure SearchPage where
  nodes : List SearchNode
  endCursor : String
  hasNextPage : Bool
deriving DecidableEq, Repr

/-- A Go slice: its elements together with whether the slice header is
nil.  `var result []PullRequest` starts nil; `append` on any slice
returns a non-nil slice. -/
structure GoSlice (α : Type) where
  isNil : Bool
  elems : List α
deriving DecidableEq, Repr

/-- The nil slice a plain `var` declaration yields. -/
def GoSlice.nilSlice {α : Type} : GoSlice α := { isNil := true, elems := [] }

/-- `append(s, a)` for one element: the result is never nil. -/
def GoSlice.append1 {α : Type} (s : GoSlice α) (a : α) : GoSlice α :=
  { isNil := false, elems := s.elems ++ [a] }

/-- The summaries one page contributes: the body of
`for _, n := range q.Search.Nodes` appends `n.PullRequest` for every
node of the page. -/
def pageSummaries (p : SearchPage) : List PullRequest :=
  p.nodes.map SearchNode.toPullRequest

/-- The pagination loop of `main`, one recursive step per `v4.Query`
call.  `pages` lists the API's responses in arrival order, `acc` is the
`result` slice and `cursor` the current `resultCursor` variable (`none`
models the null cursor of the first query).  Each step appends every
node's embedded `PullRequest` to the slice; the loop breaks when
`HasNextPage` is false, otherwise the cursor advances to the page's
`EndCursor`.  Returns the final slice and the cursors sent, in order;
`none` when the responses run out while `HasNextPage` is still true. -/
def searchLoop (pages : List SearchPage) (acc : GoSlice PullRequest)
    (cursor : Option String) :
    Option (GoSlice PullRequest × List (Option String)) :=
  match pages with
  | [] => none
  | p :: rest =>
    let acc1 := p.nodes.foldl (fun s n => s.append1 n.toPullRequest) acc
    if !p.hasNextPage then
      some (acc1, [cursor])
    else
      match searchLoop rest acc1 (some p.endCursor) with
      | none => none
      | some (r, cs) => some (r, cursor :: cs)

/-- The whole search of `main`: the loop started on the nil `result`
slice with a null cursor. -/
def runSearch (pages : List SearchPage) :
    Option (GoSlice PullRequest × List (Option String)) :=
  searchLoop pages GoSlice.nilSlice none

end ListPR

namespace GoTag

/-- `strconv.Unquote` restricted to the double-quoted case
`reflect.StructTag.Get` feeds it: strips the surrounding quotes of a
simple quoted literal; `none` on malformed input or escapes (none occur
in this repository's tags). -/
def unquoteSimple (s : List Char) : Option String :=
  match s with
  | '"' :: rest =>
    match rest.reverse with
    | '"' :: mid =>
      if (mid.reverse).all (fun c => c != '"' && c != '\\') then
        some (String.mk mid.reverse)
      else none
    | _ => none
  | _ => none

/-- Character scan of `reflect.StructTag.Lookup`: the key name extends
while the byte is above space and none of `:`, `"`, DEL. -/
def isNameChar (c : Char) : Bool :=
  decide (32 < c.toNat) && c != ':' && c != '"' && c.toNat != 127

/-- Scan of the quoted value in `reflect.StructTag.Lookup`: consume up
to the closing quote, skipping the character after a backslash; `none`
when the tag ends before the closing quote.  Returns the quoted literal
(closing quote included) and the remaining characters. -/
def scanQuoted : List Char → Option (List Char × List Char)
  | [] => none
  | '"' :: rest => some (['"'], rest)
  | '\\' :: c :: rest =>
    match scanQuoted rest with
    | none => none
    | some (q, r) => some ('\\' :: c :: q, r)
  | c :: rest =>
    match scanQuoted rest with
    | none => none
    | some (q, r) => some (c :: q, r)

/-- One pass structure of `reflect.StructTag.Lookup`, fuelled by the tag
length (each iteration consumes at least one character).  Skips spaces,
scans a key name, requires the name to be followed by `:` and `"`
(otherwise the parse stops and the lookup fails), scans the quoted
value, and either returns the unquoted value on a key match or moves on
to the next pair. -/
def tagLookupAux : Nat → List Char → String → Option String
  | 0, _, _ => none
  | fuel + 1, tag, key =>
    let tag1 := tag.dropWhile (fun c => c = ' ')
    if tag1.isEmpty then none
    else
      let name := tag1.takeWhile isNameChar
      let rest := tag1.dropWhile isNameChar
      if name.isEmpty then none
      else
        match rest with
        | ':' :: '"' :: afterColon =>
          match scanQuoted afterColon with
          | none => none
          | some (qvalue, remaining) =>
            if String.mk name = key then unquoteSimple ('"' :: qvalue)
            else tagLookupAux fuel remaining key
        | _ => none

/-- `reflect.StructTag.Get`: the looked-up value, or `""` when the key
is absent or the tag is not of the conventional `key:"value"` format. -/
def structTagGet (tag key : String) : String :=
  (tagLookupAux (tag.length + 1) tag.toList key).getD ""

/-- `isValidTag` of `encoding/json`: a non-empty name of letters, digits
and the listed punctuation. -/
def isValidJsonTagName (s : String) : Bool :=
  s != "" && s.toList.all (fun c =>
    "!#$%&()*+-./:;<=>?@[]^_\x7b|\x7d~ ".toList.contains c ||
    c.isAlpha || c.isDigit)

/-- The name part of a `json` tag value: everything before the first
comma (the rest are options such as `omitempty`). -/
def jsonTagName (t : String) : String :=
  String.mk (t.toList.takeWhile (fun c => c != ','))

/-- The JSON object key `encoding/json` uses for a struct field: the
name part of the `json` tag when present and valid, the Go field name
otherwise. -/
def jsonFieldKey (fieldName tagString : String) : String :=
  let name := jsonTagName (structTagGet tagString "json")
  if name ≠ "" ∧ isValidJsonTagName name then name else fieldName

end GoTag

namespace ListPR

/-- The struct tags of the `PullRequest` struct exactly as written in
the source: `json:number` etc., without quotes around the name. -/
def prFieldTags : List (String × String) :=
  [("Number", "json:number"), ("Title", "json:title"),
   ("State", "json:state"), ("URL", "json:url")]

/-- The keys of each object `json.Marshal` emits for a `PullRequest`
value, computed from the source's field names and tags by the embedded
`reflect`/`encoding/json` rules. -/
def marshalledKeys : List String :=
  prFieldTags.map (fun ft => GoTag.jsonFieldKey ft.1 ft.2)

/-- `json.Marshal` of the `result` slice, at the granularity the claims
need: a nil slice marshals to the JSON value `null`; a non-nil slice
marshals to a JSON array (rendering of the elements elided). -/
def marshalledShape (s : GoSlice PullRequest) : String :=
  if s.isNil then "null" else "array"

end ListPR

namespace Args

/-- `strconv.Atoi`: an optional sign followed by decimal digits, failing
on an empty digit string, a non-digit character, or 64-bit overflow (the
source only tests `err != nil`, so the error detail is irrelevant). -/
def atoi (s : String) : Option Int :=
  let cs := s.toList
  let signAndDigits :=
    match cs with
    | '+' :: rest => ((1 : Int), rest)
    | '-' :: rest => ((-1 : Int), rest)
    | _ => ((1 : Int), cs)
  let digits := signAndDigits.2
  if digits.isEmpty then none
  else if digits.all Char.isDigit then
    let v : Int :=
      signAndDigits.1 * ((digits.foldl (fun acc c => acc * 10 + (c.toNat - 48)) 0 : Nat) : Int)
    if v < -(2 ^ 63) ∨ 2 ^ 63 - 1 < v then none else some v
  else none

/-- What the argument-handling prelude of the close-PR `main` does with
the positional arguments. -/
inductive ArgOutcome where
  | usageReturn
  | fatalBadNumber
  | proceed (owner repo : String) (prNumber : Int)
deriving DecidableEq, Repr

/-- The argument handling of the close-PR `main`: any count other than
three logs `[ERROR] Invalid argument`, prints the usage text and
*returns* from `main`; a number that does not parse or is not positive
hits `log.Fatalf`. -/
def parseCloseArgs (args : List String) : ArgOutcome :=
  match args with
  | [owner, repo, number] =>
    match atoi number with
    | none => ArgOutcome.fatalBadNumber
    | some n => if n ≤ 0 then ArgOutcome.fatalBadNumber else ArgOutcome.proceed owner repo n
  | _ => ArgOutcome.usageReturn

/-- The process exit status each argument outcome produces: a plain
`return` from `main` exits 0, `log.Fatalf` exits 1, `none` when `main`
proceeds past argument handling. -/
def ArgOutcome.exitCode : ArgOutcome → Option Nat
  | ArgOutcome.usageReturn => some 0
  | ArgOutcome.fatalBadNumber => some 1
  | ArgOutcome.proceed _ _ _ => none

/-- The argument handling of the list-PR `main`: exactly one positional
argument (the query); any other count logs `[ERROR] Invalid argument`,
prints usage and returns from `main` (exit status 0). -/
def parseListArgs (args : List String) : Option String :=
  match args with
  | [q] => some q
  | _ => none

end Args

namespace RestClose

/-- Repository record of the REST variant, restricted to the fields
`main` reads (`ID`, `FullName`). -/
structure Repo where
  id : Int
  fullName : String
deriving DecidableEq, Repr

/-- A PR branch of the REST variant (`go-github` `PullRequestBranch`):
the fields `main` reads (`Ref`, `Repo`). -/
structure Branch where
  ref : String
  repo : Repo
deriving DecidableEq, Repr

/-- The `go-github` `PullRequest` record, restricted to a representative
set of its fields; `state` is the only field `main` ever writes. -/
structure PullRequest where
  number : Int
  title : String
  body : String
  state : String
  head : Branch
  base : Branch
deriving DecidableEq, Repr

/-- A mutating REST call issued by the REST close-PR `main`, with the
full request payload for the PR update. -/
inductive RestCall where
  | createComment (owner repo : String) (number : Int) (body : String)
  | editPR (owner repo : String) (number : Int) (payload : PullRequest)
  | deleteRef (owner repo ref : String)
deriving DecidableEq, Repr

/-- `true` on the `PullRequests.Edit` call. -/
def RestCall.isEditPR : RestCall → Bool
  | RestCall.editPR _ _ _ _ => true
  | _ => false

/-- Success/failure of each remote mutation of the REST variant. -/
structure Outcomes where
  commentOk : Bool
  editOk : Bool
  deleteOk : Bool
deriving DecidableEq, Repr

/-- Observable result of the REST close-PR `main` after the PR fetch:
exit status and mutating calls in order. -/
structure RunResult where
  exitCode : Nat
  calls : List RestCall
deriving DecidableEq, Repr

/-- The REST close-PR `main` after `PullRequests.Get` succeeded: a
non-`"open"` state is always fatal; a non-empty comment is posted
(failure fatal); `pr.State` is set to `"closed"` and the *same* record
is passed to `PullRequests.Edit`; with `-delete-branch`, differing head
and base repository IDs skip deletion with a warning, otherwise
`Git.DeleteRef` is called on `"heads/" + ref`. -/
def restCloseWorkflow (owner repo : String) (prNumber : Int)
    (pr : PullRequest) (closeComment : String) (deleteBranch : Bool)
    (o : Outcomes) : RunResult :=
  if pr.state ≠ "open" then
    { exitCode := 1, calls := [] }
  else
    let commentCalls : List RestCall :=
      if closeComment ≠ "" then
        [RestCall.createComment owner repo prNumber closeComment]
      else []
    if closeComment ≠ "" ∧ o.commentOk = false then
      { exitCode := 1, calls := commentCalls }
    else
      let prClosed := { pr with state := "closed" }
      let callsToEdit := commentCalls ++ [RestCall.editPR owner repo prNumber prClosed]
      if o.editOk = false then
        { exitCode := 1, calls := callsToEdit }
      else if !deleteBranch then
        { exitCode := 0, calls := callsToEdit }
      else if prClosed.head.repo.id ≠ prClosed.base.repo.id then
        { exitCode := 0, calls := callsToEdit }
      else
        let callsWithDelete :=
          callsToEdit ++ [RestCall.deleteRef owner repo ("heads/" ++ prClosed.head.ref)]
        if o.deleteOk = false then
          { exitCode := 1, calls := callsWithDelete }
        else
          { exitCode := 0, calls := callsWithDelete }

end RestClose

/-! Concrete inputs used to instantiate the theorems below. -/

/-- A merged PR whose head and base live in the same repository. -/
def mergedPR : ClosePR.PullRequest :=
  { id := "PRID1", number := 42, title := "t", state := "MERGED",
    baseRepository := { id := "R1", name := "acme/widgets" },
    headRef := { id := "REF1", name := "feature" },
    headRepository := { id := "R1", name := "acme/widgets" } }

/-- An open PR whose head repository differs from its base repository. -/
def openForkPR : ClosePR.PullRequest :=
  { id := "PRID2", number := 7, title := "t", state := "OPEN",
    baseRepository := { id := "R2", name := "acme/widgets" },
    headRef := { id := "REF2", name := "feature" },
    headRepository := { id := "R1", name := "fork/widgets" } }

/-- An open PR whose head and base repository identifiers agree. -/
def openSameRepoPR : ClosePR.PullRequest :=
  { id := "PRID3", number := 9, title := "t", state := "OPEN",
    baseRepository := { id := "R1", name := "acme/widgets" },
    headRef := { id := "REF3", name := "feature" },
    headRepository := { id := "R1", name := "acme/widgets" } }

/-- A closed PR with delete-eligible branches (head = base repository). -/
def closedSameRepoPR : ClosePR.PullRequest :=
  { id := "PRID4", number := 11, title := "t", state := "CLOSED",
    baseRepository := { id := "R1", name := "acme/widgets" },
    headRef := { id := "REF4", name := "feature" },
    headRepository := { id := "R1", name := "acme/widgets" } }

/-- All remote mutations succeed. -/
def allOk : ClosePR.Outcomes := { commentOk := true, closeOk := true, deleteOk := true }

/-- One pull-request search result. -/
def samplePR : ListPR.PullRequest := { number := 1, title := "t", state := "OPEN", url := "u" }

/-- Three pages of 100, 100 and 42 results, the last one final. -/
def pages242 : List ListPR.SearchPage :=
  [ { nodes := List.replicate 100 (ListPR.SearchNode.pullRequest samplePR),
      endCursor := "c1", hasNextPage := true },
    { nodes := List.replicate 100 (ListPR.SearchNode.pullRequest samplePR),
      endCursor := "c2", hasNextPage := true },
    { nodes := List.replicate 42 (ListPR.SearchNode.pullRequest samplePR),
      endCursor := "c3", hasNextPage := false } ]

/-- A single final page holding one plain-issue search result. -/
def issuePage : ListPR.SearchPage :=
  { nodes := [ListPR.SearchNode.issue], endCursor := "c1", hasNextPage := false }

/-- Two pages with no results at all. -/
def emptyPages : List ListPR.SearchPage :=
  [ { nodes := [], endCursor := "c1", hasNextPage := true },
    { nodes := [], endCursor := "c2", hasNextPage := false } ]

/-- An open REST-variant PR with same-repository head and base. -/
def restOpenPR : RestClose.PullRequest :=
  { number := 42, title := "t", body := "b", state := "open",
    head := { ref := "feature", repo := { id := 1, fullName := "acme/widgets" } },
    base := { ref := "main", repo := { id := 1, fullName := "acme/widgets" } } }

/-! Helper lemmas about the pagination loop. -/

/-- Appending every node of a page to the `result` slice: the slice
stays nil exactly when it was nil and the page was empty, and the page's
summaries land at the end in node order. -/
theorem foldl_append1 (nodes : List ListPR.SearchNode) (acc : ListPR.GoSlice ListPR.PullRequest) :
    nodes.foldl (fun s n => s.append1 n.toPullRequest) acc =
      { isNil := acc.isNil && nodes.isEmpty,
        elems := acc.elems ++ nodes.map ListPR.SearchNode.toPullRequest } := by
  induction nodes generalizing acc with
  | nil => cases acc; simp
  | cons n ns ih =>
    rw [List.foldl_cons, ih]
    simp [ListPR.GoSlice.append1]

/-- Full characterisation of the pagination loop on a well-formed arrival
sequence (every page but the last announces a next page, the last does
not): the loop returns, the final slice is nil exactly when the start
slice was nil and no page carried a node, the elements are the start
elements followed by all page summaries in arrival order, and the
cursors sent are the start cursor followed by each non-final page's
`EndCursor` in turn. -/
theorem searchLoop_spec (pages : List ListPR.SearchPage)
    (acc : ListPR.GoSlice ListPR.PullRequest) (cursor : Option String)
    (hmid : ∀ p ∈ pages.dropLast, p.hasNextPage = true)
    (hlast : ∃ lastP, pages.getLast? = some lastP ∧ lastP.hasNextPage = false) :
    ListPR.searchLoop pages acc cursor =
      some ({ isNil := acc.isNil && pages.all (fun p => p.nodes.isEmpty),
              elems := acc.elems ++ (pages.map ListPR.pageSummaries).flatten },
            cursor :: pages.dropLast.map (fun p => some p.endCursor)) := by
  induction pages generalizing acc cursor with
  | nil =>
    obtain ⟨l, hl, _⟩ := hlast
    simp at hl
  | cons p rest ih =>
    cases rest with
    | nil =>
      obtain ⟨l, hl, hflag⟩ := hlast
      simp at hl
      subst hl
      simp [ListPR.searchLoop, foldl_append1, hflag, ListPR.pageSummaries]
    | cons q rest2 =>
      have hp : p.hasNextPage = true := hmid p (by simp)
      have hrec := ih (p.nodes.foldl (fun s n => s.append1 n.toPullRequest) acc)
        (some p.endCursor)
        (fun r hr => hmid r (by simp [List.dropLast_cons₂, hr]))
        (by simpa using hlast)
      have hstep : ListPR.searchLoop (p :: q :: rest2) acc cursor =
          (if !p.hasNextPage then
            some (p.nodes.foldl (fun s n => s.append1 n.toPullRequest) acc, [cursor])
          else
            match ListPR.searchLoop (q :: rest2)
                (p.nodes.foldl (fun s n => s.append1 n.toPullRequest) acc)
                (some p.endCursor) with
            | none => none
            | some (r, cs) => some (r, cursor :: cs)) := rfl
      rw [hstep, hp, hrec]
      simp [foldl_append1, ListPR.pageSummaries, Bool.and_assoc, List.dropLast_cons₂]

/-! The claims. -/

/-- C1: for every resolved PR whose state is not open, the close
workflow issues no mutating call at all; without `-strict` it exits 0
after logging the not-open warning, with `-strict` it fails (exit 1,
the `PreconditionError` case) before any mutating call. -/
theorem close_not_open_is_noop (pr : ClosePR.PullRequest) (cc : String)
    (db strict : Bool) (o : ClosePR.Outcomes) (h : pr.state ≠ "OPEN") :
    (ClosePR.closeWorkflow pr cc db strict o).calls = [] ∧
    (ClosePR.closeWorkflow pr cc db strict o).exitCode = (if strict then 1 else 0) ∧
    (ClosePR.closeWorkflow pr cc db strict o).logs =
      [if strict then ClosePR.LogEvent.errorNotOpen pr.number
       else ClosePR.LogEvent.warnNotOpen pr.number] := by
  cases strict <;> simp [ClosePR.closeWorkflow, h]

/-- Witness for C1 at a merged PR, in both modes. -/
theorem close_not_open_is_noop_witness :
    ((ClosePR.closeWorkflow mergedPR "bye" true false allOk).calls = [] ∧
     (ClosePR.closeWorkflow mergedPR "bye" true false allOk).exitCode = (if false then 1 else 0) ∧
     (ClosePR.closeWorkflow mergedPR "bye" true false allOk).logs =
       [if false then ClosePR.LogEvent.errorNotOpen mergedPR.number
        else ClosePR.LogEvent.warnNotOpen mergedPR.number]) ∧
    ((ClosePR.closeWorkflow mergedPR "bye" true true allOk).calls = [] ∧
     (ClosePR.closeWorkflow mergedPR "bye" true true allOk).exitCode = (if true then 1 else 0) ∧
     (ClosePR.closeWorkflow mergedPR "bye" true true allOk).logs =
       [if true then ClosePR.LogEvent.errorNotOpen mergedPR.number
        else ClosePR.LogEvent.warnNotOpen mergedPR.number]) :=
  ⟨close_not_open_is_noop mergedPR "bye" true false allOk (by decide),
   close_not_open_is_noop mergedPR "bye" true true allOk (by decide)⟩

/-- C2: on an open PR with a non-empty close comment, the comment call
is the first mutating call of the run (so it precedes the close
mutation), and when the comment call fails the run aborts with exit 1
having issued only that call — the close mutation is never issued. -/
theorem close_comment_precedes_close (pr : ClosePR.PullRequest) (cc : String)
    (db strict : Bool) (o : ClosePR.Outcomes)
    (hopen : pr.state = "OPEN") (hcc : cc ≠ "") :
    (ClosePR.closeWorkflow pr cc db strict o).calls.head? =
      some (ClosePR.ApiCall.comment pr.id cc) ∧
    (o.commentOk = false →
      (ClosePR.closeWorkflow pr cc db strict o).calls = [ClosePR.ApiCall.comment pr.id cc] ∧
      (ClosePR.closeWorkflow pr cc db strict o).exitCode = 1) := by
  rcases o with ⟨cok, clok, dok⟩
  cases cok <;> cases clok <;> cases db <;> cases dok <;>
    by_cases hid : pr.headRepository.id = pr.baseRepository.id <;>
    simp [ClosePR.closeWorkflow, hopen, hcc, hid]

/-- Witness for C2 at an open PR whose comment call fails. -/
theorem close_comment_precedes_close_witness :
    (ClosePR.closeWorkflow openSameRepoPR "bye" true false
        { commentOk := false, closeOk := true, deleteOk := true }).calls.head? =
      some (ClosePR.ApiCall.comment openSameRepoPR.id "bye") ∧
    (({ commentOk := false, closeOk := true, deleteOk := true } : ClosePR.Outcomes).commentOk = false →
      (ClosePR.closeWorkflow openSameRepoPR "bye" true false
          { commentOk := false, closeOk := true, deleteOk := true }).calls =
        [ClosePR.ApiCall.comment openSameRepoPR.id "bye"] ∧
      (ClosePR.closeWorkflow openSameRepoPR "bye" true false
          { commentOk := false, closeOk := true, deleteOk := true }).exitCode = 1) :=
  close_comment_precedes_close openSameRepoPR "bye" true false
    { commentOk := false, closeOk := true, deleteOk := true } (by decide) (by decide)

/-- C3 counterexample: a closed PR with `-delete-branch` set and equal
head/base repository identifiers — the claimed iff demands a deletion
attempt, yet the run issues no call at all (the not-open check returns
first). -/
theorem branch_delete_iff_counterexample :
    ¬ (((ClosePR.closeWorkflow closedSameRepoPR "" true false allOk).attemptsDelete = true) ↔
        (true = true ∧ closedSameRepoPR.headRepository.id = closedSameRepoPR.baseRepository.id)) := by
  decide

/-- C3 amended: in a run that reaches past the close step (open PR,
comment step and close mutation succeed), branch deletion is attempted
iff `-delete-branch` is set and the head repository identifier equals
the base repository identifier; when they differ the run exits 0 and
logs the skip warning naming both repositories. -/
theorem branch_delete_iff_amended (pr : ClosePR.PullRequest) (cc : String)
    (db strict : Bool) (o : ClosePR.Outcomes)
    (hopen : pr.state = "OPEN") (hc : cc = "" ∨ o.commentOk = true)
    (hcl : o.closeOk = true) :
    ((ClosePR.closeWorkflow pr cc db strict o).attemptsDelete =
      (db && decide (pr.headRepository.id = pr.baseRepository.id))) ∧
    (db = true → pr.headRepository.id ≠ pr.baseRepository.id →
      (ClosePR.closeWorkflow pr cc db strict o).exitCode = 0 ∧
      ClosePR.LogEvent.warnForkSkip pr.headRepository.name pr.baseRepository.name ∈
        (ClosePR.closeWorkflow pr cc db strict o).logs) := by
  rcases o with ⟨cok, clok, dok⟩
  cases hcl
  rcases hc with hc | hc
  · cases hc
    cases cok <;> cases db <;> cases dok <;>
      by_cases hid : pr.headRepository.id = pr.baseRepository.id <;>
      simp [ClosePR.closeWorkflow, hopen, hid, ClosePR.RunResult.attemptsDelete,
        ClosePR.ApiCall.isDeleteRef]
  · cases hc
    cases db <;> cases dok <;> by_cases hcc : cc = "" <;>
      by_cases hid : pr.headRepository.id = pr.baseRepository.id <;>
      simp [ClosePR.closeWorkflow, hopen, hcc, hid, ClosePR.RunResult.attemptsDelete,
        ClosePR.ApiCall.isDeleteRef]

/-- Witness for C3's amended claim: an open fork PR with
`-delete-branch` set — no deletion attempt, exit 0, skip warning with
both repository names. -/
theorem branch_delete_iff_amended_witness :
    ((ClosePR.closeWorkflow openForkPR "" true false allOk).attemptsDelete =
      (true && decide (openForkPR.headRepository.id = openForkPR.baseRepository.id))) ∧
    (true = true → openForkPR.headRepository.id ≠ openForkPR.baseRepository.id →
      (ClosePR.closeWorkflow openForkPR "" true false allOk).exitCode = 0 ∧
      ClosePR.LogEvent.warnForkSkip openForkPR.headRepository.name openForkPR.baseRepository.name ∈
        (ClosePR.closeWorkflow openForkPR "" true false allOk).logs) :=
  branch_delete_iff_amended openForkPR "" true false allOk (by decide)
    (Or.inl rfl) (by decide)

/-- C4: on a well-formed arrival sequence the search emits the
concatenation of all pages in arrival order, each page contributing its
summaries in within-page order. -/
theorem search_concatenates_pages (pages : List ListPR.SearchPage)
    (hmid : ∀ p ∈ pages.dropLast, p.hasNextPage = true)
    (hlast : ∃ lastP, pages.getLast? = some lastP ∧ lastP.hasNextPage = false) :
    (ListPR.runSearch pages).map (fun r => r.1.elems) =
      some ((pages.map ListPR.pageSummaries).flatten) := by
  rw [ListPR.runSearch, searchLoop_spec pages ListPR.GoSlice.nilSlice none hmid hlast]
  simp [ListPR.GoSlice.nilSlice]

/-- Witness for C4: three pages of 100, 100 and 42 results produce the
242-element concatenation. -/
theorem search_concatenates_pages_witness :
    (ListPR.runSearch pages242).map (fun r => r.1.elems) =
      some ((pages242.map ListPR.pageSummaries).flatten) ∧
    ((pages242.map ListPR.pageSummaries).flatten).length = 242 :=
  ⟨search_concatenates_pages pages242 (by decide) (by decide),
   by simp [pages242, ListPR.pageSummaries]⟩

/-- C5 counterexample: the search variable the program sends is
`type: ISSUE`, not a pull-request filter, and a page holding one plain
issue node makes the zero-valued summary appear in the output list. -/
theorem search_type_filter_counterexample :
    ListPR.searchTypeVariable = "ISSUE" ∧
    (ListPR.runSearch [issuePage]).map (fun r => r.1.elems) =
      some [{ number := 0, title := "", state := "", url := "" }] := by
  constructor
  · rfl
  · rfl

/-- C5 amended: the search requests `type: ISSUE`; the loop appends one
element per node of every page, with no filtering, and a node that is a
plain issue (not a pull request) contributes the zero-valued summary
(number 0, empty title, state and URL) via the `... on PullRequest`
fragment. -/
theorem search_appends_every_node (pages : List ListPR.SearchPage)
    (hmid : ∀ p ∈ pages.dropLast, p.hasNextPage = true)
    (hlast : ∃ lastP, pages.getLast? = some lastP ∧ lastP.hasNextPage = false) :
    ListPR.searchTypeVariable = "ISSUE" ∧
    (ListPR.runSearch pages).map (fun r => r.1.elems.length) =
      some ((pages.map (fun p => p.nodes.length)).sum) ∧
    ListPR.SearchNode.toPullRequest ListPR.SearchNode.issue =
      { number := 0, title := "", state := "", url := "" } := by
  refine ⟨rfl, ?_, rfl⟩
  rw [ListPR.runSearch, searchLoop_spec pages ListPR.GoSlice.nilSlice none hmid hlast]
  simp [ListPR.GoSlice.nilSlice, ListPR.pageSummaries, Function.comp_def]

/-- Witness for C5's amended claim at a single page holding one plain
issue node. -/
theorem search_appends_every_node_witness :
    ListPR.searchTypeVariable = "ISSUE" ∧
    (ListPR.runSearch [issuePage]).map (fun r => r.1.elems.length) =
      some (([issuePage].map (fun p => p.nodes.length)).sum) ∧
    ListPR.SearchNode.toPullRequest ListPR.SearchNode.issue =
      { number := 0, title := "", state := "", url := "" } :=
  search_appends_every_node [issuePage] (by decide) (by decide)

/-- C6: the claim is right and the code is wrong — the struct tags are
written `json:number` (no quotes around the name), which
`reflect.StructTag.Get` treats as absent, so `json.Marshal` emits the
Go field names `Number`, `Title`, `State`, `URL` instead of the
lower-case keys; a correctly quoted tag would have produced them. -/
theorem json_keys_are_field_names :
    ListPR.marshalledKeys = ["Number", "Title", "State", "URL"] ∧
    ListPR.marshalledKeys ≠ ["number", "title", "state", "url"] ∧
    GoTag.structTagGet "json:number" "json" = "" ∧
    GoTag.jsonFieldKey "Number" "json:\"number\"" = "number" := by
  refine ⟨rfl, ?_, rfl, rfl⟩
  decide

/-- C7: the claim is right and the code is wrong — a wrong argument
count logs `[ERROR] Invalid argument` but merely returns from `main`,
so the process exits 0, while the other `ArgumentError` case (a
non-positive PR number) and every other fatal path go through
`log.Fatalf` and exit 1. -/
theorem wrong_arg_count_exits_zero :
    Args.parseCloseArgs ["acme", "widgets"] = Args.ArgOutcome.usageReturn ∧
    Args.ArgOutcome.exitCode (Args.parseCloseArgs ["acme", "widgets"]) = some 0 ∧
    Args.ArgOutcome.exitCode (Args.parseCloseArgs ["acme", "widgets", "0"]) = some 1 ∧
    Args.parseCloseArgs ["acme", "widgets", "42"] =
      Args.ArgOutcome.proceed "acme" "widgets" 42 ∧
    Args.parseListArgs ["query", "extra"] = none := by
  refine ⟨rfl, rfl, ?_, ?_, rfl⟩ <;> decide

/-- C8: whenever the API's arrival sequence is finite and well formed
(its last page reports no next page), the pagination loop terminates,
having sent the null cursor first and then each earlier page's
`EndCursor` in turn. -/
theorem search_pagination_terminates (pages : List ListPR.SearchPage)
    (hmid : ∀ p ∈ pages.dropLast, p.hasNextPage = true)
    (hlast : ∃ lastP, pages.getLast? = some lastP ∧ lastP.hasNextPage = false) :
    (ListPR.runSearch pages).isSome = true ∧
    (ListPR.runSearch pages).map (fun r => r.2) =
      some (none :: pages.dropLast.map (fun p => some p.endCursor)) := by
  rw [ListPR.runSearch, searchLoop_spec pages ListPR.GoSlice.nilSlice none hmid hlast]
  simp

/-- Witness for C8 at the three-page arrival sequence. -/
theorem search_pagination_terminates_witness :
    (ListPR.runSearch pages242).isSome = true ∧
    (ListPR.runSearch pages242).map (fun r => r.2) =
      some (none :: pages242.dropLast.map (fun p => some p.endCursor)) :=
  search_pagination_terminates pages242 (by decide) (by decide)

/-- C9: when every page carries zero results the `result` slice is never
allocated (stays nil), so `json.Marshal` writes the JSON value `null`
rather than an empty array. -/
theorem empty_search_marshals_null (pages : List ListPR.SearchPage)
    (hmid : ∀ p ∈ pages.dropLast, p.hasNextPage = true)
    (hlast : ∃ lastP, pages.getLast? = some lastP ∧ lastP.hasNextPage = false)
    (hempty : ∀ p ∈ pages, p.nodes = []) :
    (ListPR.runSearch pages).map (fun r => r.1.isNil) = some true ∧
    (ListPR.runSearch pages).map (fun r => ListPR.marshalledShape r.1) = some "null" := by
  rw [ListPR.runSearch, searchLoop_spec pages ListPR.GoSlice.nilSlice none hmid hlast]
  have hall : pages.all (fun p => p.nodes.isEmpty) = true := by
    rw [List.all_eq_true]
    intro p hp
    simp [hempty p hp]
  simp [ListPR.GoSlice.nilSlice, ListPR.marshalledShape, hall]

/-- Witness for C9 at two result-free pages. -/
theorem empty_search_marshals_null_witness :
    (ListPR.runSearch emptyPages).map (fun r => r.1.isNil) = some true ∧
    (ListPR.runSearch emptyPages).map (fun r => ListPR.marshalledShape r.1) = some "null" :=
  empty_search_marshals_null emptyPages (by decide) (by decide) (by decide)

/-- C10: the REST variant's update call receives exactly the fetched
record with its state overwritten to `"closed"`: the run contains one
`PullRequests.Edit` call, its payload is `pr` with `state := "closed"`,
and every other modelled field of the payload equals the fetched
snapshot's. -/
theorem rest_edit_sends_whole_record (owner repo : String) (prN : Int)
    (pr : RestClose.PullRequest) (cc : String) (db : Bool)
    (o : RestClose.Outcomes)
    (hopen : pr.state = "open") (hc : cc = "" ∨ o.commentOk = true) :
    (RestClose.restCloseWorkflow owner repo prN pr cc db o).calls.filter
        RestClose.RestCall.isEditPR =
      [RestClose.RestCall.editPR owner repo prN { pr with state := "closed" }] ∧
    ({ pr with state := "closed" } : RestClose.PullRequest).state = "closed" ∧
    ({ pr with state := "closed" } : RestClose.PullRequest).number = pr.number ∧
    ({ pr with state := "closed" } : RestClose.PullRequest).title = pr.title ∧
    ({ pr with state := "closed" } : RestClose.PullRequest).body = pr.body ∧
    ({ pr with state := "closed" } : RestClose.PullRequest).head = pr.head ∧
    ({ pr with state := "closed" } : RestClose.PullRequest).base = pr.base := by
  refine ⟨?_, rfl, rfl, rfl, rfl, rfl, rfl⟩
  rcases o with ⟨cok, eok, dok⟩
  rcases hc with hc | hc
  · cases hc
    cases cok <;> cases eok <;> cases db <;> cases dok <;>
      by_cases hid : pr.head.repo.id = pr.base.repo.id <;>
      simp [RestClose.restCloseWorkflow, hopen, hid, RestClose.RestCall.isEditPR]
  · cases hc
    cases eok <;> cases db <;> cases dok <;> by_cases hcc : cc = "" <;>
      by_cases hid : pr.head.repo.id = pr.base.repo.id <;>
      simp [RestClose.restCloseWorkflow, hopen, hcc, hid, RestClose.RestCall.isEditPR]

/-- Witness for C10 at an open same-repository PR with a comment. -/
theorem rest_edit_sends_whole_record_witness :
    (RestClose.restCloseWorkflow "acme" "widgets" 42 restOpenPR "bye" true
        { commentOk := true, editOk := true, deleteOk := true }).calls.filter
        RestClose.RestCall.isEditPR =
      [RestClose.RestCall.editPR "acme" "widgets" 42 { restOpenPR with state := "closed" }] ∧
    ({ restOpenPR with state := "closed" } : RestClose.PullRequest).state = "closed" ∧
    ({ restOpenPR with state := "closed" } : RestClose.PullRequest).number = restOpenPR.number ∧
    ({ restOpenPR with state := "closed" } : RestClose.PullRequest).title = restOpenPR.title ∧
    ({ restOpenPR with state := "closed" } : RestClose.PullRequest).body = restOpenPR.body ∧
    ({ restOpenPR with state := "closed" } : RestClose.PullRequest).head = restOpenPR.head ∧
    ({ restOpenPR with state := "closed" } : RestClose.PullRequest).base = restOpenPR.base :=
  rest_edit_sends_whole_record "acme" "widgets" 42 restOpenPR "bye" true
    { commentOk := true, editOk := true, deleteOk := true } (by decide) (Or.inr rfl)

end GoMisc
